import Mathlib

/-!
Shallow embedding of the core of the `websockets` Rust crate (an async
WebSocket client library), together with proofs about its frame codec,
handshake validation, and split read/write halves.

The embedding follows the source files:
  - `src/websocket/frame.rs`   (the `Frame` type, `Frame::send`,
    `Frame::read_from_websocket`, `set_continuation`, `set_fin`)
  - `src/websocket/split.rs`   (`WebSocketReadHalf::receive`,
    `receive_without_handling`, `WebSocketWriteHalf::{flush, send, shutdown, close}`)
  - `src/websocket/builder.rs` (`WebSocketBuilder::connect`)
  - `src/websocket/handshake.rs` (`Handshake::check_response`, accept-key check)

Machine integers are modelled as `Nat` with explicit `% 256`, `% 2 ^ 16`,
`% 2 ^ 64` where a truncating cast occurs in the source.  Byte streams are
`List Nat`.  Asynchronous I/O is modelled by explicit state passing; fallible
operations return `Except WebSocketError`.
-/

set_option maxRecDepth 1000000

namespace WS

/-- The error enum from `src/error.rs` (`WebSocketError`).  Payloads carrying
foreign types (`IoError`, `NativeTlsError`, `ParseError`) are dropped, since
only the variant identity matters to the verified properties. -/
inductive WebSocketError where
  | TcpConnectionError
  | TlsConnectionError
  | WebSocketClosedError
  | ShutdownError
  | InvalidHandshakeError
  | HandshakeFailedError (statusCode : String) (headers : List (String × String))
      (body : Option String)
  | ControlFrameTooLargeError
  | PayloadTooLargeError
  | InvalidFrameError
  | ReceivedMaskedFrameError
  | ParseError
  | SchemeError
  | HostError
  | PortError
  | SocketAddrError
  | ResolutionError
  | ReadError
  | WriteError
  | ChannelError
  deriving Repr, DecidableEq

/-- The continuation-context enum `FrameType` from `src/websocket/mod.rs`. -/
inductive FrameType where
  | Text
  | Binary
  | Control
  deriving Repr, DecidableEq

/-- Modelled from the spec: the `Default` implementation of `FrameType`
(used at `builder.rs` line 90 as `FrameType::default()`) is not present in
the provided sources; the spec fixes the initial continuation context to
`Control` ("no data frame in progress"), which matches the explicit
`last_frame_type: FrameType::Control` in `builder/mod.rs`. -/
def FrameType.derivedDefault : FrameType := .Control

/-- The `Frame` enum from `src/websocket/frame.rs`.  Rust `String` stays a
Lean `String`; `Vec<u8>` becomes `List Nat` (bytes); the Close status code
`u16` becomes a `Nat` (< 2 ^ 16 where it originates from the wire). -/
inductive Frame where
  | text (payload : String) (continuation : Bool) (fin : Bool)
  | binary (payload : List Nat) (continuation : Bool) (fin : Bool)
  | close (payload : Option (Nat × String))
  | ping (payload : Option (List Nat))
  | pong (payload : Option (List Nat))
  deriving Repr, DecidableEq

/-- UTF-8 encoding of a single code point (Rust `str::as_bytes` /
`String::into_bytes` byte production for one `char`). -/
def utf8CharBytes (c : Nat) : List Nat :=
  if c < 0x80 then [c]
  else if c < 0x800 then
    [0xC0 ||| (c >>> 6), 0x80 ||| (c &&& 0x3F)]
  else if c < 0x10000 then
    [0xE0 ||| (c >>> 12), 0x80 ||| ((c >>> 6) &&& 0x3F), 0x80 ||| (c &&& 0x3F)]
  else
    [0xF0 ||| (c >>> 18), 0x80 ||| ((c >>> 12) &&& 0x3F),
      0x80 ||| ((c >>> 6) &&& 0x3F), 0x80 ||| (c &&& 0x3F)]

/-- The UTF-8 bytes of a string (Rust `String::into_bytes` / `as_bytes`). -/
def strBytes (s : String) : List Nat :=
  (s.data.map fun c => utf8CharBytes c.toNat).flatten

instance {ε α : Type} [DecidableEq ε] [DecidableEq α] : DecidableEq (Except ε α) := fun x y =>
  match x, y with
  | .error e, .error f =>
    if h : e = f then isTrue (congrArg _ h) else isFalse (fun he => h (Except.error.inj he))
  | .ok a, .ok b =>
    if h : a = b then isTrue (congrArg _ h) else isFalse (fun he => h (Except.ok.inj he))
  | .error _, .ok _ => isFalse (fun he => Except.noConfusion he)
  | .ok _, .error _ => isFalse (fun he => Except.noConfusion he)

/-- Big-endian byte representation of `n` truncated to `width` bytes
(Rust `uN::to_be_bytes` after an `as uN` cast). -/
def beBytes (width n : Nat) : List Nat :=
  (List.range width).map fun i => n / 256 ^ (width - 1 - i) % 256

/-- `Frame::is_control` (`frame.rs` lines 448-457). -/
def Frame.isControl : Frame → Bool
  | .text .. => false
  | .binary .. => false
  | .close .. => true
  | .ping .. => true
  | .pong .. => true

/-- `Frame::opcode` (`frame.rs` lines 459-480). -/
def Frame.opcode : Frame → Nat
  | .text _ continuation _ => if continuation then 0x0 else 0x1
  | .binary _ continuation _ => if continuation then 0x0 else 0x2
  | .close _ => 0x8
  | .ping _ => 0x9
  | .pong _ => 0xA

/-- `Frame::fin` (`frame.rs` lines 482-491): the fin bit already shifted
into place (`(fin as u8) << 7`; control frames always `0b10000000`). -/
def Frame.finBits : Frame → Nat
  | .text _ _ fin => (if fin then 1 else 0) <<< 7
  | .binary _ _ fin => (if fin then 1 else 0) <<< 7
  | .close _ => 0b10000000
  | .ping _ => 0b10000000
  | .pong _ => 0b10000000

/-- Payload materialization in `Frame::send` (`frame.rs` lines 382-399):
Text rarr UTF-8 bytes; Binary as-is; Close with payload rarr 2-byte
big-endian status code then UTF-8 reason; Ping/Pong rarr bytes or empty. -/
def Frame.materializePayload : Frame → List Nat
  | .text payload _ _ => strBytes payload
  | .binary payload _ _ => payload
  | .close (some (statusCode, reason)) => beBytes 2 statusCode ++ strBytes reason
  | .close none => []
  | .ping payload => payload.getD []
  | .pong payload => payload.getD []

/-- `U64_MAX_MINUS_ONE` from `frame.rs` line 14 (`u64::MAX - 1`). -/
def U64_MAX_MINUS_ONE : Nat := 2 ^ 64 - 2

/-- The length-field bytes computed in `Frame::send` (`frame.rs` lines
408-421), before the mask bit is added to the first byte.  The source
matches on `payload.len()` with ranges `0..=125`,
`126..=U16_MAX_MINUS_ONE` (65534), `U16_MAX..=U64_MAX_MINUS_ONE`
(65535 to 2^64-2), and errors with `PayloadTooLargeError` otherwise. -/
def payloadLenData (len : Nat) : Except WebSocketError (List Nat) :=
  if len ≤ 125 then .ok [len % 256]
  else if len ≤ 65534 then .ok (126 :: beBytes 2 (len % 2 ^ 16))
  else if len ≤ U64_MAX_MINUS_ONE then .ok (127 :: beBytes 8 (len % 2 ^ 64))
  else .error .PayloadTooLargeError

/-- `payload_len_data[0] += 0b10000000` (`frame.rs` line 422): set the
mask bit on the first length byte. -/
def setMaskBit : List Nat → List Nat
  | [] => []
  | b :: rest => (b + 0b10000000) :: rest

/-- The masking loop of `Frame::send` (`frame.rs` lines 428-430): each
payload byte at index `i` is XORed with `key[i % 4]`, starting at `i`. -/
def maskPayload (key : List Nat) : Nat → List Nat → List Nat
  | _, [] => []
  | i, b :: rest => (b ^^^ key.getD (i % 4) 0) :: maskPayload key (i + 1) rest

/-- The pure part of `Frame::send` (`frame.rs` lines 373-446): the wire
bytes produced for frame `f` with masking key `key`, or the encoding
error.  The error checks (`ControlFrameTooLargeError` at lines 401-403,
`PayloadTooLargeError` at line 420) occur before the masking key is drawn. -/
def Frame.encode (f : Frame) (key : List Nat) : Except WebSocketError (List Nat) :=
  let payload := f.materializePayload
  if f.isControl ∧ 125 < payload.length then .error .ControlFrameTooLargeError
  else
    match payloadLenData payload.length with
    | .error e => .error e
    | .ok lenData =>
      .ok ((f.opcode + f.finBits) :: (setMaskBit lenData ++ key ++ maskPayload key 0 payload))

/-- `Frame::set_continuation` (`frame.rs` lines 329-345). -/
def Frame.setContinuation : Frame → Bool → Frame
  | .text payload _ fin, continuation => .text payload continuation fin
  | .binary payload _ fin, continuation => .binary payload continuation fin
  | f, _ => f

/-- `Frame::set_fin` (`frame.rs` lines 347-371). -/
def Frame.setFin : Frame → Bool → Frame
  | .text payload continuation _, fin => .text payload continuation fin
  | .binary payload continuation _, fin => .binary payload continuation fin
  | f, _ => f

/-- Strict UTF-8 validation and decoding with explicit fuel (structural
recursion so the kernel can evaluate it; every step consumes at least one
byte, so any `fuel ≥ length` gives the same result). -/
def utf8DecodeFuel : Nat → List Nat → Option (List Char)
  | _, [] => some []
  | 0, _ :: _ => none
  | fuel + 1, b :: rest =>
    if b < 0x80 then
      match utf8DecodeFuel fuel rest with
      | some cs => some (Char.ofNat b :: cs)
      | none => none
    else if b < 0xC2 then none
    else if b < 0xE0 then
      match rest with
      | b1 :: rest1 =>
        if 0x80 ≤ b1 ∧ b1 < 0xC0 then
          match utf8DecodeFuel fuel rest1 with
          | some cs => some (Char.ofNat (((b - 0xC0) <<< 6) ||| (b1 - 0x80)) :: cs)
          | none => none
        else none
      | [] => none
    else if b < 0xF0 then
      match rest with
      | b1 :: b2 :: rest2 =>
        if (0x80 ≤ b1 ∧ b1 < 0xC0) ∧ (0x80 ≤ b2 ∧ b2 < 0xC0)
            ∧ (b = 0xE0 → 0xA0 ≤ b1) ∧ (b = 0xED → b1 < 0xA0) then
          match utf8DecodeFuel fuel rest2 with
          | some cs =>
            some (Char.ofNat (((b - 0xE0) <<< 12) ||| ((b1 - 0x80) <<< 6) ||| (b2 - 0x80)) :: cs)
          | none => none
        else none
      | _ => none
    else if b < 0xF5 then
      match rest with
      | b1 :: b2 :: b3 :: rest3 =>
        if (0x80 ≤ b1 ∧ b1 < 0xC0) ∧ (0x80 ≤ b2 ∧ b2 < 0xC0) ∧ (0x80 ≤ b3 ∧ b3 < 0xC0)
            ∧ (b = 0xF0 → 0x90 ≤ b1) ∧ (b = 0xF4 → b1 < 0x90) then
          match utf8DecodeFuel fuel rest3 with
          | some cs =>
            some (Char.ofNat (((b - 0xF0) <<< 18) ||| ((b1 - 0x80) <<< 12)
              ||| ((b2 - 0x80) <<< 6) ||| (b3 - 0x80)) :: cs)
          | none => none
        else none
      | _ => none
    else none

/-- Strict UTF-8 validation and decoding, as performed by Rust's
`String::from_utf8` (RFC 3629 table: rejects continuation-lead bytes,
overlong encodings, surrogates, and code points above 0x10FFFF). -/
def utf8Decode (l : List Nat) : Option (List Char) := utf8DecodeFuel l.length l

/-- A server-to-client byte stream, consumed from the front. -/
abbrev ByteStream := List Nat

/-- `read_u8` on the buffered reader: one byte or an I/O error (EOF). -/
def readU8 : ByteStream → Except WebSocketError (Nat × ByteStream)
  | [] => .error .ReadError
  | b :: rest => .ok (b, rest)

/-- `read_exact` into a buffer of length `n`: exactly `n` bytes or an
I/O error. -/
def readExact (n : Nat) (s : ByteStream) : Except WebSocketError (List Nat × ByteStream) :=
  if n ≤ s.length then .ok (s.take n, s.drop n) else .error .ReadError

/-- Big-endian value of a byte list (`u16::from_be_bytes`,
`u64::from_be_bytes`, and tokio's `read_u16` / `read_u64`). -/
def beVal (bs : List Nat) : Nat := bs.foldl (fun acc b => acc * 256 + b) 0

/-- tokio `read_u16`: two bytes, big-endian. -/
def readU16 (s : ByteStream) : Except WebSocketError (Nat × ByteStream) :=
  match readExact 2 s with
  | .ok (bs, rest) => .ok (beVal bs, rest)
  | .error e => .error e

/-- tokio `read_u64`: eight bytes, big-endian (cast `as usize` is the
identity on a 64-bit target). -/
def readU64 (s : ByteStream) : Except WebSocketError (Nat × ByteStream) :=
  match readExact 8 s with
  | .ok (bs, rest) => .ok (beVal bs, rest)
  | .error e => .error e

/-- The opcode dispatch at the end of `Frame::read_from_websocket`
(`frame.rs` lines 538-594).  `payloadLen` is the decoded length field and
`payload` the bytes read for it (the caller guarantees
`payload.length = payloadLen`).  `split_at(2)` becomes `take 2` / `drop 2`
(well-defined since the `payloadLen < 2` guard precedes it). -/
def dispatchOpcode (opcode : Nat) (ctx : FrameType) (fin : Bool) (payloadLen : Nat)
    (payload : List Nat) : Except WebSocketError Frame :=
  if opcode = 0x0 then
    match ctx with
    | .Text =>
      match utf8Decode payload with
      | some cs => .ok (.text (String.mk cs) true fin)
      | none => .error .InvalidFrameError
    | .Binary => .ok (.binary payload true fin)
    | .Control => .error .InvalidFrameError
  else if opcode = 0x1 then
    match utf8Decode payload with
    | some cs => .ok (.text (String.mk cs) false fin)
    | none => .error .InvalidFrameError
  else if opcode = 0x2 then .ok (.binary payload false fin)
  else if opcode ≤ 0x7 then .error .InvalidFrameError
  else if opcode = 0x8 then
    if payloadLen = 0 then .ok (.close none)
    else if payloadLen < 2 then .error .InvalidFrameError
    else
      match utf8Decode (payload.drop 2) with
      | some cs => .ok (.close (some (beVal (payload.take 2), String.mk cs)))
      | none => .error .InvalidFrameError
  else if opcode = 0x9 then
    if payloadLen = 0 then .ok (.ping none) else .ok (.ping (some payload))
  else if opcode = 0xA then
    if payloadLen = 0 then .ok (.pong none) else .ok (.pong (some payload))
  else .error .InvalidFrameError

/-- `Frame::read_from_websocket` (`frame.rs` lines 493-595): decode one
frame from the byte stream, given the read half's stored continuation
context `ctx` (`read_half.last_frame_type`). -/
def readFromWebsocket (ctx : FrameType) (s : ByteStream) :
    Except WebSocketError (Frame × ByteStream) := do
  let (finAndOpcode, s) ← readU8 s
  let fin : Bool := finAndOpcode &&& 0b10000000 != 0
  let opcode := finAndOpcode &&& 0b00001111
  let (maskAndLenFirst, s) ← readU8 s
  let masked : Bool := maskAndLenFirst &&& 0b10000000 != 0
  if masked then .error .ReceivedMaskedFrameError
  else do
    let lenFirst := maskAndLenFirst &&& 0b01111111
    let (payloadLen, s) ←
      if lenFirst ≤ 125 then pure (lenFirst, s)
      else if lenFirst = 126 then readU16 s
      else readU64 s
    let (payload, s) ← readExact payloadLen s
    match dispatchOpcode opcode ctx fin payloadLen payload with
    | .ok f => .ok (f, s)
    | .error e => .error e

/-- The context update in `WebSocketReadHalf::receive_without_handling`
(`split.rs` lines 76-80): Text and Binary frames overwrite
`last_frame_type`; all other frames leave it unchanged. -/
def updateLastFrameType (ctx : FrameType) (f : Frame) : FrameType :=
  match f with
  | .text .. => .Text
  | .binary .. => .Binary
  | _ => ctx

/-- `WebSocketReadHalf::receive_without_handling` (`split.rs` lines
73-82): decode one frame, then update the continuation context. -/
def receiveWithoutHandling (ctx : FrameType) (s : ByteStream) :
    Except WebSocketError (Frame × FrameType × ByteStream) := do
  let (f, s) ← readFromWebsocket ctx s
  .ok (f, updateLastFrameType ctx f, s)

/-- The `Event` enum from `split.rs` lines 15-18. -/
inductive Event where
  | SendPongFrame (f : Frame)
  | SendCloseFrameAndShutdown (f : Frame)
  deriving Repr, DecidableEq

/-- The incoming-frame handling in `WebSocketReadHalf::receive`
(`split.rs` lines 40-62): the events enqueued for a decoded frame.
`channelBroken` models `Sender::send` failing because the receiving half
was dropped, which the source maps to `ChannelError`. -/
def handleIncomingFrame (f : Frame) (channelBroken : Bool) :
    Except WebSocketError (List Event) :=
  match f with
  | .ping payload =>
    if channelBroken then .error .ChannelError
    else .ok [.SendPongFrame (.pong payload)]
  | .close payload =>
    if channelBroken then .error .ChannelError
    else .ok [.SendCloseFrameAndShutdown (.close (payload.map fun p => (p.1, "")))]
  | _ => .ok []

/-- `WebSocketReadHalf::receive` (`split.rs` lines 37-64): decode a frame
(updating the continuation context), enqueue any reaction events, and
return the frame. -/
def wsReceive (ctx : FrameType) (channelBroken : Bool) (s : ByteStream) :
    Except WebSocketError (Frame × FrameType × List Event × ByteStream) := do
  let (f, ctx2, s) ← receiveWithoutHandling ctx s
  let evs ← handleIncomingFrame f channelBroken
  .ok (f, ctx2, evs, s)

/-- The `WebSocketWriteHalf` state (`split.rs` lines 88-94).  The ChaCha20
RNG is abstracted as a supply of masking keys (`rngKeys`, consumed one per
encoded frame); the buffered writer is abstracted as the list of wire
bytes written so far (`sentBytes`); `queue` is the receiver end of the
event channel; `streamShutdown` records that the transport was shut down. -/
structure WriteHalf where
  shutdown : Bool
  sentClosed : Bool
  rngKeys : List (List Nat)
  queue : List Event
  sentBytes : List Nat
  streamShutdown : Bool
  deriving Repr, DecidableEq

/-- `rng.fill_bytes(&mut masking_key)` (`frame.rs` lines 426-427): draw
the next 4-byte masking key from the write half's RNG. -/
def drawMaskingKey (st : WriteHalf) : List Nat × WriteHalf :=
  (st.rngKeys.headD (List.replicate 4 0), { st with rngKeys := st.rngKeys.tail })

/-- `Frame::send` as a state transition on the write half (`frame.rs`
lines 373-446, also `send_without_events_check` at `split.rs` lines
140-143): on success the wire bytes are appended to the stream and the
RNG has advanced; on an encoding error the state is unchanged (both error
checks precede the key generation in the source; stream I/O is assumed to
succeed). -/
def frameSendToStream (f : Frame) (st : WriteHalf) : WriteHalf × Option WebSocketError :=
  let (key, st2) := drawMaskingKey st
  match f.encode key with
  | .error e => (st, some e)
  | .ok raw => ({ st2 with sentBytes := st2.sentBytes ++ raw }, none)

/-- `WebSocketWriteHalf::shutdown` (`split.rs` lines 173-183): shut the
transport down for writes and set `sent_closed` (stream I/O assumed to
succeed). -/
def wsShutdownWrite (st : WriteHalf) : WriteHalf × Option WebSocketError :=
  ({ st with streamShutdown := true, sentClosed := true }, none)

/-- The loop body of `WebSocketWriteHalf::flush` (`split.rs` lines
102-121), recursing over the events drained from the channel.  Each
iteration pops one event; if `shutdown` is set the popped event is
dropped and the loop breaks; a `SendPongFrame` is sent; a
`SendCloseFrameAndShutdown` is sent (followed by transport shutdown) only
when `sent_closed` is already set, and is silently consumed otherwise.
On an error the remaining events stay queued. -/
def wsFlushAux (st : WriteHalf) : List Event → WriteHalf × Option WebSocketError
  | [] => (st, none)
  | ev :: rest =>
    if st.shutdown then ({ st with queue := rest }, none)
    else
      match ev with
      | .SendPongFrame f =>
        match frameSendToStream f st with
        | (st2, none) => wsFlushAux st2 rest
        | (st2, some e) => ({ st2 with queue := rest }, some e)
      | .SendCloseFrameAndShutdown f =>
        if st.sentClosed then
          match frameSendToStream f st with
          | (st2, none) =>
            match wsShutdownWrite st2 with
            | (st3, none) => wsFlushAux st3 rest
            | (st3, some e) => ({ st3 with queue := rest }, some e)
          | (st2, some e) => ({ st2 with queue := rest }, some e)
        else wsFlushAux st rest

/-- `WebSocketWriteHalf::flush` (`split.rs` lines 102-121). -/
def wsFlush (st : WriteHalf) : WriteHalf × Option WebSocketError :=
  wsFlushAux { st with queue := [] } st.queue

/-- `WebSocketWriteHalf::send` (`split.rs` lines 128-134): flush queued
events, fail with `WebSocketClosedError` if `shutdown` or `sent_closed`
is set, otherwise encode and write the frame. -/
def wsSend (f : Frame) (st : WriteHalf) : WriteHalf × Option WebSocketError :=
  match wsFlush st with
  | (st1, some e) => (st1, some e)
  | (st1, none) =>
    if st1.shutdown || st1.sentClosed then (st1, some .WebSocketClosedError)
    else frameSendToStream f st1

/-- `WebSocketWriteHalf::close` (`split.rs` lines 195-200): send a Close
frame (the `self.shutdown()` call is commented out in the source). -/
def wsClose (payload : Option (Nat × String)) (st : WriteHalf) :
    WriteHalf × Option WebSocketError :=
  wsSend (.close payload) st

/-- The write half as constructed in `WebSocketBuilder::connect`
(`builder.rs` lines 93-99): both flags false, empty channel, fresh RNG. -/
def initWriteHalf (rngKeys : List (List Nat)) : WriteHalf :=
  { shutdown := false, sentClosed := false, rngKeys := rngKeys, queue := [],
    sentBytes := [], streamShutdown := false }

/-- The handshake portion of `WebSocketBuilder::connect` (`builder.rs`
lines 110-117), with the three I/O outcomes as oracles: the result of
`Handshake::send_request`, of `Handshake::check_response`, and of
`WebSocket::shutdown`.  Returns whether the stream shutdown was invoked,
and the value `connect` returns.  `send_request` errors propagate through
`?` directly; `check_response` errors trigger `ws.shutdown().await?`
before the error is returned (a shutdown failure replaces the error). -/
def connectHandshakeOutcome
    (sendRequestResult checkResponseResult shutdownResult : Except WebSocketError Unit) :
    Bool × Except WebSocketError Unit :=
  match sendRequestResult with
  | .error e => (false, .error e)
  | .ok _ =>
    match checkResponseResult with
    | .ok _ => (false, .ok ())
    | .error e =>
      match shutdownResult with
      | .ok _ => (true, .error e)
      | .error e2 => (true, .error e2)

/-- 32-bit word arithmetic base for SHA-1. -/
def w32 : Nat := 2 ^ 32

/-- Left rotation of a 32-bit word (`x < 2 ^ 32`). -/
def rotl32 (n x : Nat) : Nat := ((x <<< n) ||| (x >>> (32 - n))) % w32

/-- SHA-1 message padding (FIPS 180-1): append `0x80`, zero bytes to 56
mod 64, then the bit length as 8 big-endian bytes.  SHA-1 is consumed by
the source as a primitive transform (the `sha1` crate); it is modelled
here from its standard definition so that the accept-key computation in
`Handshake::check_response` can be evaluated. -/
def sha1PadBytes (msg : List Nat) : List Nat :=
  msg ++ [0x80] ++ List.replicate ((64 - (msg.length + 9) % 64) % 64) 0
    ++ beBytes 8 (8 * msg.length)

/-- Group bytes into 32-bit big-endian words. -/
def toWords32 : List Nat → List Nat
  | b0 :: b1 :: b2 :: b3 :: rest =>
    (((b0 * 256 + b1) * 256 + b2) * 256 + b3) :: toWords32 rest
  | _ => []

/-- Extend the 16 message words, `fuel` times, by the SHA-1 recurrence
`w[i] = rotl1 (w[i-3] xor w[i-8] xor w[i-14] xor w[i-16])`. -/
def sha1ExtendWords (ws : List Nat) : Nat → List Nat
  | 0 => ws
  | fuel + 1 =>
    let n := ws.length
    let w := rotl32 1 (ws.getD (n - 3) 0 ^^^ ws.getD (n - 8) 0
      ^^^ ws.getD (n - 14) 0 ^^^ ws.getD (n - 16) 0)
    sha1ExtendWords (ws ++ [w]) fuel

/-- The SHA-1 round function `f` for round `i`. -/
def sha1F (i b c d : Nat) : Nat :=
  if i < 20 then (b &&& c) ||| ((b ^^^ 0xFFFFFFFF) &&& d)
  else if i < 40 then b ^^^ c ^^^ d
  else if i < 60 then (b &&& c) ||| (b &&& d) ||| (c &&& d)
  else b ^^^ c ^^^ d

/-- The SHA-1 round constant for round `i`. -/
def sha1K (i : Nat) : Nat :=
  if i < 20 then 0x5A827999
  else if i < 40 then 0x6ED9EBA1
  else if i < 60 then 0x8F1BBCDC
  else 0xCA62C1D6

/-- One SHA-1 round on the working state `(a, b, c, d, e)`. -/
def sha1Round (st : Nat × Nat × Nat × Nat × Nat) (i w : Nat) :
    Nat × Nat × Nat × Nat × Nat :=
  let (a, b, c, d, e) := st
  ((rotl32 5 a + sha1F i b c d + e + sha1K i + w) % w32, a, rotl32 30 b, c, d)

/-- Process one 64-byte block, updating the five hash words. -/
def sha1ProcessBlock (h : List Nat) (block : List Nat) : List Nat :=
  let ws := sha1ExtendWords (toWords32 block) 64
  let init := (h.getD 0 0, h.getD 1 0, h.getD 2 0, h.getD 3 0, h.getD 4 0)
  let fin := (List.range 80).foldl (fun st i => sha1Round st i (ws.getD i 0)) init
  [(h.getD 0 0 + fin.1) % w32, (h.getD 1 0 + fin.2.1) % w32,
    (h.getD 2 0 + fin.2.2.1) % w32, (h.getD 3 0 + fin.2.2.2.1) % w32,
    (h.getD 4 0 + fin.2.2.2.2) % w32]

/-- Split a byte list into 64-byte chunks, with explicit fuel (each step
consumes at least one element, so any `fuel ≥ length` is enough). -/
def chunks64Fuel : Nat → List Nat → List (List Nat)
  | _, [] => []
  | 0, _ :: _ => []
  | fuel + 1, b :: rest => ((b :: rest).take 64) :: chunks64Fuel fuel ((b :: rest).drop 64)

/-- Split a byte list into 64-byte chunks. -/
def chunks64 (l : List Nat) : List (List Nat) := chunks64Fuel l.length l

/-- SHA-1 digest of a byte list: 20 bytes. -/
def sha1 (msg : List Nat) : List Nat :=
  let h := (chunks64 (sha1PadBytes msg)).foldl sha1ProcessBlock
    [0x67452301, 0xEFCDAB89, 0x98BADCFE, 0x10325476, 0xC3D2E1F0]
  (h.map fun wrd => beBytes 4 wrd).flatten

/-- The standard base64 alphabet (RFC 4648), as used by `base64::encode`. -/
def base64Alphabet : List Char :=
  "ABCDEFGHIJKLMNOPQRSTUVWXYZabcdefghijklmnopqrstuvwxyz0123456789+/".data

/-- One base64 output character. -/
def base64Digit (n : Nat) : Char := base64Alphabet.getD n 'A'

/-- Standard base64 encoding with `=` padding (`base64::encode`;
consumed by the source as a primitive transform). -/
def base64Encode : List Nat → List Char
  | [] => []
  | [b0] => [base64Digit (b0 >>> 2), base64Digit ((b0 &&& 3) <<< 4), '=', '=']
  | [b0, b1] =>
    [base64Digit (b0 >>> 2), base64Digit (((b0 &&& 3) <<< 4) ||| (b1 >>> 4)),
      base64Digit ((b1 &&& 15) <<< 2), '=']
  | b0 :: b1 :: b2 :: rest =>
    base64Digit (b0 >>> 2) :: base64Digit (((b0 &&& 3) <<< 4) ||| (b1 >>> 4))
      :: base64Digit (((b1 &&& 15) <<< 2) ||| (b2 >>> 6)) :: base64Digit (b2 &&& 63)
      :: base64Encode rest

/-- The `GUUID` constant from `handshake.rs` line 11. -/
def GUUID : String := "258EAFA5-E914-47DA-95CA-C5AB0DC85B11"

/-- The accept key computed in `Handshake::check_response` (`handshake.rs`
lines 209-212): `base64(SHA1(key || GUUID))` over the UTF-8 bytes. -/
def computeAcceptKey (key : String) : String :=
  String.mk (base64Encode (sha1 (strBytes (key ++ GUUID))))

/-- The accept-key validation step of `Handshake::check_response`
(`handshake.rs` lines 209-215): compare the server's
`Sec-WebSocket-Accept` value byte-exactly against the computed key;
mismatch is `InvalidHandshakeError`. -/
def validateAcceptKey (key serverAccept : String) : Except WebSocketError Unit :=
  if serverAccept ≠ computeAcceptKey key then .error .InvalidHandshakeError
  else .ok ()

example : payloadLenData 3 = .ok [3] := by decide
example : payloadLenData 300 = .ok [126, 1, 44] := by decide
example : payloadLenData 66000 = .ok [127, 0, 0, 0, 0, 0, 1, 1, 208] := by decide
example : sha1 (strBytes "abc")
  = [0xa9, 0x99, 0x3e, 0x36, 0x47, 0x06, 0x81, 0x6a, 0xba, 0x3e,
      0x25, 0x71, 0x78, 0x50, 0xc2, 0x6c, 0x9c, 0xd0, 0xd8, 0x9d] := by decide
example : readFromWebsocket .Control [0x81, 0x03, 97, 97, 97]
  = .ok (.text "aaa" false true, []) := by decide

/-- Auxiliary for C5: masking twice with the same key from the same
starting index restores the payload, whatever the index. -/
theorem maskPayload_maskPayload (key p : List Nat) :
    ∀ i, maskPayload key i (maskPayload key i p) = p := by
  induction p with
  | nil => intro i; rfl
  | cons b rest ih =>
    intro i
    simp [maskPayload, Nat.xor_assoc, Nat.xor_self, Nat.xor_zero]
    exact ih (i + 1)

/-- C5: masking as performed by the encoder (`Frame::send`, XOR of each
payload byte at index `i` with `key[i % 4]`) is an involution: applying
it twice with the same 4-byte key returns the payload unchanged. -/
theorem masking_involution (key p : List Nat) (_hkey : key.length = 4) :
    maskPayload key 0 (maskPayload key 0 p) = p :=
  maskPayload_maskPayload key p 0

/-- Witness for C5 at a concrete key and payload. -/
theorem masking_involution_witness :
    ([1, 2, 3, 4] : List Nat).length = 4
  ∧ maskPayload [1, 2, 3, 4] 0 (maskPayload [1, 2, 3, 4] 0 [5, 6, 7, 8, 9]) = [5, 6, 7, 8, 9] :=
  ⟨by decide, masking_involution [1, 2, 3, 4] [5, 6, 7, 8, 9] (by decide)⟩

/-- C1: evaluation of the encoder's length field at the boundary.  The
claim states that every payload length in 126..65535 is encoded as `126`
plus two big-endian bytes (the shortest form RFC 6455 permits), but the
source's match arm `126..=U16_MAX_MINUS_ONE` excludes 65535, which
therefore gets the `127` eight-byte form — a non-minimal encoding. -/
theorem payloadLenData_boundary :
    payloadLenData 65534 = .ok [126, 255, 254]
  ∧ payloadLenData 65535 = .ok [127, 0, 0, 0, 0, 0, 0, 255, 255]
  ∧ payloadLenData 65536 = .ok [127, 0, 0, 0, 0, 0, 1, 0, 0] := by
  refine ⟨by decide, by decide, by decide⟩

/-- C10: `set_continuation` and `set_fin` change only the targeted flag
on Text and Binary frames, leaving payload and the other flag unchanged,
and return Close, Ping and Pong frames unchanged. -/
theorem setContinuation_setFin_effects :
    (∀ (p : String) (c fn b : Bool), Frame.setContinuation (.text p c fn) b = .text p b fn)
  ∧ (∀ (p : List Nat) (c fn b : Bool), Frame.setContinuation (.binary p c fn) b = .binary p b fn)
  ∧ (∀ (p : Option (Nat × String)) (b : Bool), Frame.setContinuation (.close p) b = .close p)
  ∧ (∀ (p : Option (List Nat)) (b : Bool), Frame.setContinuation (.ping p) b = .ping p)
  ∧ (∀ (p : Option (List Nat)) (b : Bool), Frame.setContinuation (.pong p) b = .pong p)
  ∧ (∀ (p : String) (c fn b : Bool), Frame.setFin (.text p c fn) b = .text p c b)
  ∧ (∀ (p : List Nat) (c fn b : Bool), Frame.setFin (.binary p c fn) b = .binary p c b)
  ∧ (∀ (p : Option (Nat × String)) (b : Bool), Frame.setFin (.close p) b = .close p)
  ∧ (∀ (p : Option (List Nat)) (b : Bool), Frame.setFin (.ping p) b = .ping p)
  ∧ (∀ (p : Option (List Nat)) (b : Bool), Frame.setFin (.pong p) b = .pong p) := by
  refine ⟨?_, ?_, ?_, ?_, ?_, ?_, ?_, ?_, ?_, ?_⟩ <;> intros <;> rfl

/-- C6 (amended): encoding a Close, Ping or Pong frame whose materialized
payload exceeds 125 bytes fails with `ControlFrameTooLargeError` (the
check precedes length encoding and masking); the decoder performs no such
check (see the counterexample theorem for C6). -/
theorem control_frame_too_large_encode (f : Frame) (key : List Nat)
    (hctl : f.isControl = true) (hlen : 125 < f.materializePayload.length) :
    f.encode key = .error .ControlFrameTooLargeError := by
  simp [Frame.encode, hctl, hlen]

/-- Witness for C6's encode theorem: a 126-byte Ping. -/
theorem control_frame_too_large_encode_witness :
    (Frame.ping (some (List.replicate 126 0))).isControl = true
  ∧ 125 < (Frame.ping (some (List.replicate 126 0))).materializePayload.length
  ∧ (Frame.ping (some (List.replicate 126 0))).encode [0, 0, 0, 0]
      = .error .ControlFrameTooLargeError :=
  ⟨by decide, by decide,
    control_frame_too_large_encode _ [0, 0, 0, 0] (by decide) (by decide)⟩

/-- C6 counterexample to the decode half of the claim as stated: a Ping
frame with a 126-byte payload (wire length field `126`, extended length
`0x007E`) decodes successfully, so decoding a control frame CAN succeed
with a payload length greater than 125. -/
theorem control_frame_large_decode_succeeds :
    readFromWebsocket .Control ([0x89, 126, 0, 126] ++ List.replicate 126 0)
      = .ok (.ping (some (List.replicate 126 0)), []) := by decide

/-- C7: any frame whose second header byte has the MASK bit set is
rejected with `ReceivedMaskedFrameError`, for every context, first header
byte (opcode and fin), and remaining bytes — in particular before any
length field or payload is interpreted (the remaining bytes are
unconstrained and may be empty). -/
theorem masked_frame_rejected (ctx : FrameType) (b0 b1 : Nat) (rest : ByteStream)
    (hmask : b1 &&& 0b10000000 ≠ 0) :
    readFromWebsocket ctx (b0 :: b1 :: rest) = .error .ReceivedMaskedFrameError := by
  simp only [readFromWebsocket, readU8, bind, Except.bind]
  simp [hmask]

/-- Witness for C7: a masked text frame header. -/
theorem masked_frame_rejected_witness :
    ((0x80 : Nat) &&& 0b10000000 ≠ 0)
  ∧ readFromWebsocket .Control [0x81, 0x80] = .error .ReceivedMaskedFrameError :=
  ⟨by decide, masked_frame_rejected .Control 0x81 0x80 [] (by decide)⟩

/-- C8: the continuation context starts as `Control`; a continuation
opcode (0x0) in context `Control` is `InvalidFrameError`; in context
`Text` or `Binary` the frame is rebuilt with the stored type,
`continuation = true` and the observed fin bit; and after each received
frame the context becomes `Text` for Text frames, `Binary` for Binary
frames, and is unchanged for Close, Ping and Pong. -/
theorem continuation_context :
    FrameType.derivedDefault = .Control
  ∧ (∀ (fn : Bool) (len : Nat) (payload : List Nat),
      dispatchOpcode 0x0 .Control fn len payload = .error .InvalidFrameError)
  ∧ (∀ (fn : Bool) (len : Nat) (payload : List Nat) (cs : List Char),
      utf8Decode payload = some cs →
      dispatchOpcode 0x0 .Text fn len payload = .ok (.text (String.mk cs) true fn))
  ∧ (∀ (fn : Bool) (len : Nat) (payload : List Nat),
      dispatchOpcode 0x0 .Binary fn len payload = .ok (.binary payload true fn))
  ∧ (∀ (ctx : FrameType) (p : String) (c fn : Bool),
      updateLastFrameType ctx (.text p c fn) = .Text)
  ∧ (∀ (ctx : FrameType) (p : List Nat) (c fn : Bool),
      updateLastFrameType ctx (.binary p c fn) = .Binary)
  ∧ (∀ (ctx : FrameType) (p : Option (Nat × String)),
      updateLastFrameType ctx (.close p) = ctx)
  ∧ (∀ (ctx : FrameType) (p : Option (List Nat)),
      updateLastFrameType ctx (.ping p) = ctx)
  ∧ (∀ (ctx : FrameType) (p : Option (List Nat)),
      updateLastFrameType ctx (.pong p) = ctx) := by
  refine ⟨rfl, fun fn len payload => rfl, ?_, fun fn len payload => rfl,
    fun ctx p c fn => rfl, fun ctx p c fn => rfl, fun ctx p => rfl,
    fun ctx p => rfl, fun ctx p => rfl⟩
  intro fn len payload cs h
  simp [dispatchOpcode, h]

/-- Witness for C8 at concrete inputs (a one-byte ASCII continuation in
Text context, and a continuation in the initial Control context). -/
theorem continuation_context_witness :
    utf8Decode [97] = some ['a']
  ∧ dispatchOpcode 0x0 .Text true 1 [97] = .ok (.text "a" true true)
  ∧ dispatchOpcode 0x0 .Control true 0 [] = .error .InvalidFrameError :=
  ⟨by decide, continuation_context.2.2.1 true 1 [97] ['a'] (by decide),
    continuation_context.2.1 true 0 []⟩

/-- C4: `receive` returns every decoded frame to the caller; a Ping
enqueues a `SendPongFrame` with the identical payload, a Close enqueues a
`SendCloseFrameAndShutdown` echoing the status code with an empty reason
(`none` stays `none`), Text/Binary/Pong enqueue nothing, and a broken
channel turns the Ping and Close cases into `ChannelError`. -/
theorem receive_events (ctx : FrameType) (s : ByteStream) (broken : Bool) :
    (∀ p ctx2 s2, receiveWithoutHandling ctx s = .ok (.ping p, ctx2, s2) →
      wsReceive ctx broken s =
        if broken then .error .ChannelError
        else .ok (.ping p, ctx2, [.SendPongFrame (.pong p)], s2))
  ∧ (∀ p ctx2 s2, receiveWithoutHandling ctx s = .ok (.close p, ctx2, s2) →
      wsReceive ctx broken s =
        if broken then .error .ChannelError
        else .ok (.close p, ctx2,
          [.SendCloseFrameAndShutdown (.close (p.map fun q => (q.1, "")))], s2))
  ∧ (∀ p c fn ctx2 s2, receiveWithoutHandling ctx s = .ok (.text p c fn, ctx2, s2) →
      wsReceive ctx broken s = .ok (.text p c fn, ctx2, [], s2))
  ∧ (∀ p c fn ctx2 s2, receiveWithoutHandling ctx s = .ok (.binary p c fn, ctx2, s2) →
      wsReceive ctx broken s = .ok (.binary p c fn, ctx2, [], s2))
  ∧ (∀ p ctx2 s2, receiveWithoutHandling ctx s = .ok (.pong p, ctx2, s2) →
      wsReceive ctx broken s = .ok (.pong p, ctx2, [], s2)) := by
  refine ⟨?_, ?_, ?_, ?_, ?_⟩
  · intro p ctx2 s2 h
    cases broken <;> simp [wsReceive, h, bind, Except.bind, handleIncomingFrame]
  · intro p ctx2 s2 h
    cases broken <;> simp [wsReceive, h, bind, Except.bind, handleIncomingFrame]
  · intro p c fn ctx2 s2 h
    simp [wsReceive, h, bind, Except.bind, handleIncomingFrame]
  · intro p c fn ctx2 s2 h
    simp [wsReceive, h, bind, Except.bind, handleIncomingFrame]
  · intro p ctx2 s2 h
    simp [wsReceive, h, bind, Except.bind, handleIncomingFrame]

/-- Witness for C4: an unsolicited Ping with payload `[0xAB, 0xCD]`. -/
theorem receive_events_witness :
    receiveWithoutHandling .Control [0x89, 2, 0xAB, 0xCD]
      = .ok (.ping (some [0xAB, 0xCD]), .Control, [])
  ∧ wsReceive .Control false [0x89, 2, 0xAB, 0xCD]
      = .ok (.ping (some [0xAB, 0xCD]), .Control,
          [.SendPongFrame (.pong (some [0xAB, 0xCD]))], []) :=
  ⟨by decide,
    (receive_events .Control [0x89, 2, 0xAB, 0xCD] false).1
      (some [0xAB, 0xCD]) .Control [] (by decide)⟩

/-- C2: evaluation at the failing input.  On a fresh write half a Close
frame is sent successfully (the wire bytes `0x88 0x80` plus the masking
key are written and no error is returned) yet `sent_closed` remains
`false` afterwards — nothing in `split.rs` sets it after a Close is sent
(`close()` has its `self.shutdown()` call commented out), contradicting
the claim.  The conjuncts about flag-set states confirm the
`WebSocketClosedError` part of the claim at those inputs. -/
theorem wsSend_close_does_not_set_sentClosed :
    (wsSend (.close none) (initWriteHalf [[1, 2, 3, 4]])).2 = none
  ∧ (wsSend (.close none) (initWriteHalf [[1, 2, 3, 4]])).1.sentBytes
      = [0x88, 0x80, 1, 2, 3, 4]
  ∧ (wsSend (.close none) (initWriteHalf [[1, 2, 3, 4]])).1.sentClosed = false
  ∧ (wsSend (.close none) { initWriteHalf [] with sentClosed := true }).2
      = some .WebSocketClosedError
  ∧ (wsSend (.close none) { initWriteHalf [] with shutdown := true }).2
      = some .WebSocketClosedError := by
  refine ⟨by decide, by decide, by decide, by decide, by decide⟩

/-- C3 counterexample: a handshake error raised while sending the upgrade
request (`Handshake::send_request` fails with a write error) propagates
through `?` at `builder.rs` line 110 without the stream being shut down —
the shutdown-on-error wrapper only surrounds `check_response`. -/
theorem connect_sendRequest_error_skips_shutdown :
    connectHandshakeOutcome (.error .WriteError) (.ok ()) (.ok ())
      = (false, .error .WriteError) := by decide

/-- C3 (amended): errors from parsing/validating the handshake response
(`check_response`) cause the stream to be shut down before the error is
returned (a failing shutdown replaces the error with its own); errors
from sending the request are returned without any shutdown; on success
nothing is shut down. -/
theorem connect_shutdown_behaviour :
    (∀ (e : WebSocketError) (sr : Except WebSocketError Unit),
      connectHandshakeOutcome (.ok ()) (.error e) sr
        = (true, .error (match sr with | .ok _ => e | .error e2 => e2)))
  ∧ (∀ (e : WebSocketError) (cr sr : Except WebSocketError Unit),
      connectHandshakeOutcome (.error e) cr sr = (false, .error e))
  ∧ (∀ (sr : Except WebSocketError Unit),
      connectHandshakeOutcome (.ok ()) (.ok ()) sr = (false, .ok ())) := by
  refine ⟨fun e sr => ?_, fun e cr sr => rfl, fun sr => rfl⟩
  cases sr <;> rfl

/-- C9: the accept-key validation of `Handshake::check_response` succeeds
exactly when the server's `Sec-WebSocket-Accept` equals
`base64(SHA1(key || GUUID))`, failing with `InvalidHandshakeError`
otherwise; and on the canonical RFC 6455 key the computed accept value is
the canonical one. -/
theorem accept_key_validation :
    (∀ (key serverAccept : String),
      validateAcceptKey key serverAccept
        = if serverAccept = computeAcceptKey key then .ok ()
          else .error .InvalidHandshakeError)
  ∧ computeAcceptKey "dGhlIHNhbXBsZSBub25jZQ==" = "s3pPLMBiTxaQ9kYGzzhZRbK+xOo=" := by
  constructor
  · intro key serverAccept
    unfold validateAcceptKey
    by_cases h : serverAccept = computeAcceptKey key <;> simp [h]
  · decide

end WS
